import Mathlib

/-!
Verification of the voicely web front-end (src/main.py): a FastAPI
application that validates a language against a fixed allow-list, calls an
external speech-synthesis engine to write a WAV file at a fixed path, and
serves that file for download.  The route handlers are embedded as pure
Lean functions; filesystem presence is an abstract predicate, and the
external synthesis engine is an abstract function returning either the
audio content it wrote or the message of the exception it raised.
-/

namespace Voicely

/-- Needle-is-at-the-front test: does the first list occur verbatim at
the head of the second? -/
def strMatch : List Char → List Char → Bool
  | [], _ => true
  | _ :: _, [] => false
  | a :: as, b :: bs => a == b && strMatch as bs

/-- `s` starts with `p` (kernel-computable model of str.startswith). -/
def str_starts (s p : String) : Bool := strMatch p.data s.data

/-- `s` ends with `p` (kernel-computable model of str.endswith). -/
def str_ends (s p : String) : Bool := strMatch p.data.reverse s.data.reverse

/-- POSIX os.path.join for two components, as used by `os.path.join` in
main.py: an absolute second component replaces the first entirely. -/
def os_path_join (a b : String) : String :=
  if str_starts b "/" then b
  else if a = "" ∨ str_ends a "/" then a ++ b
  else a ++ "/" ++ b

/-- main.py line 32: the fixed output directory. -/
def output_dir : String := "outputs"

/-- main.py line 116: the language allow-list inside generate_speech. -/
def supported_languages : List String := ["hi", "en", "es", "fr"]

/-- main.py line 36: the fixed reference voice sample path,
`os.path.join(os.getcwd(), "sample.wav")`. -/
def custom_speaker_wav (cwd : String) : String := os_path_join cwd "sample.wav"

/-- Outcome of module initialization (main.py lines 36-38): either the
FileNotFoundError raised when the reference sample is absent, or the
server ready with the resolved speaker path. -/
inductive StartupResult where
  | fileNotFoundError (msg : String)
  | ready (speaker_wav : String)
  deriving DecidableEq, Repr

/-- main.py lines 36-38: module initialization checks that the reference
voice sample exists; `isfile` abstracts `os.path.isfile`. -/
def module_init (cwd : String) (isfile : String → Bool) : StartupResult :=
  let speaker := custom_speaker_wav cwd
  if isfile speaker then StartupResult.ready speaker
  else StartupResult.fileNotFoundError
    ("❌ Custom speaker WAV file not found: " ++ speaker)

/-- HTTP responses the handlers can produce.  `html` is
fastapi.responses.HTMLResponse (default status 200), `redirect` is
RedirectResponse, `file` is FileResponse (the filename field makes it an
attachment), `json` is a plain JSON body. -/
inductive Response where
  | html (body : String) (status : Nat)
  | redirect (url : String) (status : Nat)
  | file (path : String) (media_type : String) (filename : String) (status : Nat)
  | json (body : String) (status : Nat)
  deriving DecidableEq, Repr

/-- One invocation of `tts.tts_to_file` with its keyword arguments
(main.py line 126). -/
structure SynthCall where
  text : String
  speaker_wav : String
  language : String
  file_path : String
  deriving DecidableEq, Repr

/-- What a call to generate_speech produced: the HTTP response, the list
of synthesis-engine invocations it made, and the files written (path and
content) during the request. -/
structure GenResult where
  response : Response
  calls : List SynthCall
  writes : List (String × String)
  deriving DecidableEq, Repr

/-- main.py lines 112-135, `generate_speech(text, language)`.  `synth`
abstracts `tts.tts_to_file`: `.ok audio` means the engine wrote `audio`
to the requested file path, `.error e` means it raised an exception whose
message is `e`.  The broad `except Exception` renders the message inline;
an unsupported language returns before any synthesis call. -/
def generate_speech (synth : SynthCall → Except String String) (cwd : String)
    (text language : String) : GenResult :=
  if language ∉ supported_languages then
    { response := Response.html
        ("<h3>Error: Unsupported language '" ++ language ++ "'</h3>") 200,
      calls := [], writes := [] }
  else
    let output_path := output_dir ++ "/output.wav"
    let call : SynthCall :=
      { text := text, speaker_wav := custom_speaker_wav cwd,
        language := language, file_path := output_path }
    match synth call with
    | Except.ok audio =>
      { response := Response.redirect "/success?filename=output.wav" 303,
        calls := [call], writes := [(output_path, audio)] }
    | Except.error e =>
      { response := Response.html ("<h3>Error: " ++ e ++ "</h3>") 200,
        calls := [call], writes := [] }

/-- main.py lines 143-148, `download_file(filename)`: joins the filename
onto the outputs directory, serves it as an audio/wav attachment when the
file exists, else an inline "File not found!" HTML body (status 200). -/
def download_file (isfile : String → Bool) (filename : String) : Response :=
  let file_path := os_path_join output_dir filename
  if isfile file_path then Response.file file_path "audio/wav" filename 200
  else Response.html "<h3>File not found!</h3>" 200

/-- main.py line 140 uses Python `str.replace`, which scans left to right
and substitutes every non-overlapping occurrence of the needle, never
rescanning substituted text.  Char-list model of that scan; `skip > 0`
means the head character belongs to a needle occurrence that was already
replaced, so it is dropped without being re-examined. -/
def pyReplaceAux (needle repl : List Char) : Nat → List Char → List Char
  | _, [] => []
  | Nat.succ k, _ :: rest => pyReplaceAux needle repl k rest
  | 0, c :: rest =>
    if strMatch needle (c :: rest) then
      repl ++ pyReplaceAux needle repl (needle.length - 1) rest
    else c :: pyReplaceAux needle repl 0 rest

/-- Python replace on char lists, starting outside any occurrence. -/
def pyReplace (needle repl s : List Char) : List Char :=
  pyReplaceAux needle repl 0 s

/-- Python `s.replace(old, new)` on strings. -/
def pyReplaceStr (s old new : String) : String :=
  String.mk (pyReplace old.data new.data s.data)

/-- main.py lines 83-104: the download-page HTML template, verbatim
(the placeholder braces are written with escapes). -/
def download_template : String :=
  "\n<!DOCTYPE html>\n<html lang=\"en\">\n\n<head>\n    <meta charset=\"UTF-8\">\n    <title>Download Speech</title>\n    <link href=\"https://cdn.jsdelivr.net/npm/bootstrap@5.3.0/dist/css/bootstrap.min.css\" rel=\"stylesheet\">\n</head>\n\n<body class=\"bg-light\">\n\n    <div class=\"container mt-5\">\n        <h1 class=\"mb-4\">🎧 Your Speech is Ready!</h1>\n        <a href=\"/download/\x7bfilename\x7d\" class=\"btn btn-success\">Download Speech</a>\n        <a href=\"/\" class=\"btn btn-secondary\">Generate Again</a>\n    </div>\n\n</body>\n\n</html>\n"

/-- Everything of the template strictly before the "/download/" link
target, for stating where the substitution lands. -/
def dt_before : String :=
  "\n<!DOCTYPE html>\n<html lang=\"en\">\n\n<head>\n    <meta charset=\"UTF-8\">\n    <title>Download Speech</title>\n    <link href=\"https://cdn.jsdelivr.net/npm/bootstrap@5.3.0/dist/css/bootstrap.min.css\" rel=\"stylesheet\">\n</head>\n\n<body class=\"bg-light\">\n\n    <div class=\"container mt-5\">\n        <h1 class=\"mb-4\">🎧 Your Speech is Ready!</h1>\n        <a href=\""

/-- Everything of the template after the placeholder. -/
def dt_after : String :=
  "\" class=\"btn btn-success\">Download Speech</a>\n        <a href=\"/\" class=\"btn btn-secondary\">Generate Again</a>\n    </div>\n\n</body>\n\n</html>\n"

/-- main.py lines 138-140, `success_page(filename)`: returns the download
template with the placeholder substituted by Python str.replace, as an
HTMLResponse. -/
def success_page (filename : String) : Response :=
  Response.html (pyReplaceStr download_template "\x7bfilename\x7d" filename) 200

/-- Modelled from the spec: the repository's second main variant (not
present under src/) adds a GET /health endpoint whose response is exactly
the JSON body with status ok. -/
def health : Response :=
  Response.json "\x7b\"status\":\"ok\"\x7d" 200

/-- A filesystem-visible step of one client's session: writing a file
(the synthesis output) or reading one (the download). -/
inductive Event where
  | write (client : Nat) (path content : String)
  | read (client : Nat) (path : String)
  deriving DecidableEq, Repr

/-- Run a sequence of events against a filesystem (path to content),
recording what every read observed. -/
def runEvents : List Event → (String → Option String) → List (Nat × String × Option String)
  | [], _ => []
  | Event.write _ p c :: rest, fs =>
    runEvents rest (fun q => if q = p then some c else fs q)
  | Event.read cl p :: rest, fs => (cl, p, fs p) :: runEvents rest fs

/-- `Interleaving xs ys zs`: `zs` is one possible concurrent schedule of
the two clients' event sequences `xs` and `ys`, preserving each client's
own order. -/
inductive Interleaving : List Event → List Event → List Event → Prop where
  | nil : Interleaving [] [] []
  | left {x xs ys zs} : Interleaving xs ys zs → Interleaving (x :: xs) ys (x :: zs)
  | right {y xs ys zs} : Interleaving xs ys zs → Interleaving xs (y :: ys) (y :: zs)

/-- One client's filesystem footprint: the writes its generate_speech
call performs, then its download read of output.wav via download_file's
path (main.py line 145). -/
def session (client : Nat) (synth : SynthCall → Except String String)
    (cwd text language : String) : List Event :=
  ((generate_speech synth cwd text language).writes.map
    (fun w => Event.write client w.1 w.2))
    ++ [Event.read client (os_path_join output_dir "output.wav")]

theorem str_append_assoc (a b c : String) : a ++ b ++ c = a ++ (b ++ c) := by
  apply String.ext
  simp [String.data_append]

theorem output_path_eq : output_dir ++ "/output.wav" = "outputs/output.wav" := rfl

/-- Helper: full result of generate_speech when the language is supported
and the synthesis call succeeds. -/
theorem generate_ok_result
    (synth : SynthCall → Except String String) (cwd text language audio : String)
    (hl : language ∈ supported_languages)
    (hs : synth { text := text, speaker_wav := custom_speaker_wav cwd,
                  language := language, file_path := "outputs/output.wav" }
          = Except.ok audio) :
    generate_speech synth cwd text language
      = { response := Response.redirect "/success?filename=output.wav" 303,
          calls := [{ text := text, speaker_wav := custom_speaker_wav cwd,
                      language := language, file_path := "outputs/output.wav" }],
          writes := [("outputs/output.wav", audio)] } := by
  unfold generate_speech
  rw [if_neg (by simp [hl])]
  simp only [output_path_eq, hs]

/-- C1: a call to generate_speech with a language outside {hi,en,es,fr}
returns an inline HTML body containing "Unsupported language" (status
200), never invokes the synthesis engine, and writes no file. -/
theorem generate_rejects_unsupported_language
    (synth : SynthCall → Except String String) (cwd text language : String)
    (h : language ∉ supported_languages) :
    (∃ a b, (generate_speech synth cwd text language).response
        = Response.html (a ++ "Unsupported language" ++ b) 200)
    ∧ (generate_speech synth cwd text language).calls = []
    ∧ (generate_speech synth cwd text language).writes = [] := by
  unfold generate_speech
  rw [if_pos h]
  refine ⟨⟨"<h3>Error: ", " '" ++ language ++ "'</h3>", ?_⟩, rfl, rfl⟩
  have hd : "<h3>Error: Unsupported language '".data
      = "<h3>Error: ".data ++ ("Unsupported language".data ++ " '".data) := by decide
  refine congrArg (fun bd => Response.html bd 200) ?_
  apply String.ext
  simp only [String.data_append, List.append_assoc, hd]
  simp

theorem generate_rejects_unsupported_language_witness :
    (∃ a b, (generate_speech (fun _ => Except.ok "A") "/app" "hello" "de").response
        = Response.html (a ++ "Unsupported language" ++ b) 200)
    ∧ (generate_speech (fun _ => Except.ok "A") "/app" "hello" "de").calls = []
    ∧ (generate_speech (fun _ => Except.ok "A") "/app" "hello" "de").writes = [] :=
  generate_rejects_unsupported_language (fun _ => Except.ok "A") "/app" "hello" "de"
    (by decide)

/-- C2: with a supported language and a successful synthesis call,
generate_speech invokes the engine exactly once with the submitted text,
the fixed speaker sample, the submitted language and the fixed path
outputs/output.wav; it responds with a 303 redirect to the success route
and the output file has been written. -/
theorem generate_success_behavior
    (synth : SynthCall → Except String String) (cwd text language audio : String)
    (hl : language ∈ supported_languages)
    (hs : synth { text := text, speaker_wav := custom_speaker_wav cwd,
                  language := language, file_path := "outputs/output.wav" }
          = Except.ok audio) :
    (generate_speech synth cwd text language).calls
      = [{ text := text, speaker_wav := custom_speaker_wav cwd,
           language := language, file_path := "outputs/output.wav" }]
    ∧ (generate_speech synth cwd text language).response
      = Response.redirect "/success?filename=output.wav" 303
    ∧ ("outputs/output.wav", audio) ∈ (generate_speech synth cwd text language).writes := by
  rw [generate_ok_result synth cwd text language audio hl hs]
  exact ⟨rfl, rfl, by simp⟩

theorem generate_success_behavior_witness :
    (generate_speech (fun _ => Except.ok "AUDIO") "/app" "hello" "en").calls
      = [{ text := "hello", speaker_wav := custom_speaker_wav "/app",
           language := "en", file_path := "outputs/output.wav" }]
    ∧ (generate_speech (fun _ => Except.ok "AUDIO") "/app" "hello" "en").response
      = Response.redirect "/success?filename=output.wav" 303
    ∧ ("outputs/output.wav", "AUDIO")
        ∈ (generate_speech (fun _ => Except.ok "AUDIO") "/app" "hello" "en").writes :=
  generate_success_behavior (fun _ => Except.ok "AUDIO") "/app" "hello" "en" "AUDIO"
    (by decide) rfl

/-- C3: download_file serves the joined path as an audio/wav attachment
when the file exists, and otherwise returns the inline "File not found!"
HTML body with status 200 rather than 404. -/
theorem download_file_cases (isfile : String → Bool) (filename : String) :
    (isfile (os_path_join output_dir filename) = true →
      download_file isfile filename
        = Response.file (os_path_join output_dir filename) "audio/wav" filename 200)
    ∧ (isfile (os_path_join output_dir filename) = false →
      download_file isfile filename = Response.html "<h3>File not found!</h3>" 200) := by
  unfold download_file
  constructor
  · intro h
    rw [if_pos h]
  · intro h
    rw [if_neg (by simp [h])]

theorem download_file_cases_witness :
    download_file (fun _ => true) "output.wav"
      = Response.file "outputs/output.wav" "audio/wav" "output.wav" 200
    ∧ download_file (fun _ => false) "output.wav"
      = Response.html "<h3>File not found!</h3>" 200 :=
  ⟨(download_file_cases (fun _ => true) "output.wav").1 rfl,
   (download_file_cases (fun _ => false) "output.wav").2 rfl⟩

/-- C4: when the synthesis call raises, generate_speech catches the
exception and returns an inline HTML body embedding the exception's
message, with status 200; being a total function of the synthesis
outcome, it never propagates the exception. -/
theorem synthesis_error_rendered_inline
    (synth : SynthCall → Except String String) (cwd text language e : String)
    (hl : language ∈ supported_languages)
    (hs : synth { text := text, speaker_wav := custom_speaker_wav cwd,
                  language := language, file_path := "outputs/output.wav" }
          = Except.error e) :
    (generate_speech synth cwd text language).response
      = Response.html ("<h3>Error: " ++ e ++ "</h3>") 200
    ∧ ∃ a b, (generate_speech synth cwd text language).response
      = Response.html (a ++ e ++ b) 200 := by
  have hmain : (generate_speech synth cwd text language).response
      = Response.html ("<h3>Error: " ++ e ++ "</h3>") 200 := by
    unfold generate_speech
    rw [if_neg (by simp [hl])]
    simp only [output_path_eq, hs]
  exact ⟨hmain, "<h3>Error: ", "</h3>", hmain⟩

theorem synthesis_error_rendered_inline_witness :
    (generate_speech (fun _ => Except.error "boom") "/app" "hi there" "fr").response
      = Response.html ("<h3>Error: " ++ "boom" ++ "</h3>") 200
    ∧ ∃ a b, (generate_speech (fun _ => Except.error "boom") "/app" "hi there" "fr").response
      = Response.html (a ++ "boom" ++ b) 200 :=
  synthesis_error_rendered_inline (fun _ => Except.error "boom") "/app" "hi there" "fr"
    "boom" (by decide) rfl

/-- C5: module initialization checks for the reference sample at
cwd/sample.wav; when it is absent it raises FileNotFoundError and the
server never becomes ready, and when it is present startup proceeds to
the ready state. -/
theorem missing_sample_is_fatal (cwd : String) (isfile : String → Bool) :
    (isfile (custom_speaker_wav cwd) = false →
      (∀ p, module_init cwd isfile ≠ StartupResult.ready p)
      ∧ ∃ m, module_init cwd isfile = StartupResult.fileNotFoundError m)
    ∧ (isfile (custom_speaker_wav cwd) = true →
      module_init cwd isfile = StartupResult.ready (custom_speaker_wav cwd)) := by
  unfold module_init
  constructor
  · intro h
    simp only [h, Bool.false_eq_true, if_false]
    exact ⟨fun p hc => StartupResult.noConfusion hc, _, rfl⟩
  · intro h
    simp only [h, if_true]

theorem missing_sample_is_fatal_witness :
    (∀ p, module_init "/app" (fun _ => false) ≠ StartupResult.ready p)
    ∧ module_init "/app" (fun _ => true)
        = StartupResult.ready (custom_speaker_wav "/app") :=
  ⟨((missing_sample_is_fatal "/app" (fun _ => false)).1 rfl).1,
   (missing_sample_is_fatal "/app" (fun _ => true)).2 rfl⟩

/-- C6: the /health endpoint (modelled from the spec, second variant)
responds with exactly the JSON body with status ok. -/
theorem health_returns_status_ok :
    health = Response.json "\x7b\"status\":\"ok\"\x7d" 200 := rfl

/-- C8: download_file does not confine served paths to the outputs
directory: an absolute filename makes os.path.join discard the "outputs"
component, so the path that is existence-checked and served lies outside
outputs, and (when present there) that outside file is served. -/
theorem download_escapes_output_dir :
    os_path_join output_dir "/etc/passwd" = "/etc/passwd"
    ∧ str_starts "/etc/passwd" (output_dir ++ "/") = false
    ∧ ∀ isfile : String → Bool, isfile "/etc/passwd" = true →
        download_file isfile "/etc/passwd"
          = Response.file "/etc/passwd" "audio/wav" "/etc/passwd" 200 := by
  refine ⟨by decide, by decide, ?_⟩
  intro isfile h
  unfold download_file
  rw [show os_path_join output_dir "/etc/passwd" = "/etc/passwd" from by decide, if_pos h]

theorem download_escapes_output_dir_witness :
    download_file (fun _ => true) "/etc/passwd"
      = Response.file "/etc/passwd" "audio/wav" "/etc/passwd" 200 :=
  download_escapes_output_dir.2.2 (fun _ => true) rfl

/-- C9: every successful generate_speech call redirects to the fixed URL
"/success?filename=output.wav" with status 303, independent of the
submitted text and language: two arbitrary successful requests produce
the identical response. -/
theorem redirect_target_fixed
    (synth1 synth2 : SynthCall → Except String String)
    (cwd1 cwd2 t1 l1 t2 l2 a1 a2 : String)
    (h1 : l1 ∈ supported_languages) (h2 : l2 ∈ supported_languages)
    (hs1 : synth1 { text := t1, speaker_wav := custom_speaker_wav cwd1,
                    language := l1, file_path := "outputs/output.wav" }
           = Except.ok a1)
    (hs2 : synth2 { text := t2, speaker_wav := custom_speaker_wav cwd2,
                    language := l2, file_path := "outputs/output.wav" }
           = Except.ok a2) :
    (generate_speech synth1 cwd1 t1 l1).response
      = Response.redirect "/success?filename=output.wav" 303
    ∧ (generate_speech synth1 cwd1 t1 l1).response
      = (generate_speech synth2 cwd2 t2 l2).response := by
  have e1 := congrArg GenResult.response (generate_ok_result synth1 cwd1 t1 l1 a1 h1 hs1)
  have e2 := congrArg GenResult.response (generate_ok_result synth2 cwd2 t2 l2 a2 h2 hs2)
  exact ⟨e1, e1.trans e2.symm⟩

theorem redirect_target_fixed_witness :
    (generate_speech (fun _ => Except.ok "A1") "/a" "un texte" "fr").response
      = Response.redirect "/success?filename=output.wav" 303
    ∧ (generate_speech (fun _ => Except.ok "A1") "/a" "un texte" "fr").response
      = (generate_speech (fun _ => Except.ok "A2") "/b" "una historia" "es").response :=
  redirect_target_fixed (fun _ => Except.ok "A1") (fun _ => Except.ok "A2")
    "/a" "/b" "un texte" "fr" "una historia" "es" "A1" "A2"
    (by decide) (by decide) rfl rfl

theorem strMatch_append_self (l s : List Char) : strMatch l (l ++ s) = true := by
  induction l with
  | nil => rfl
  | cons c cs ih => simp [strMatch, ih]

theorem pyReplaceAux_skip (needle repl l s : List Char) :
    pyReplaceAux needle repl l.length (l ++ s) = pyReplaceAux needle repl 0 s := by
  induction l with
  | nil => rfl
  | cons c cs ih =>
    simp only [List.length_cons, List.cons_append]
    rw [pyReplaceAux]
    exact ih

theorem pyReplaceAux_at_head (n0 : Char) (ntail repl s : List Char) :
    pyReplaceAux (n0 :: ntail) repl 0 ((n0 :: ntail) ++ s)
      = repl ++ pyReplaceAux (n0 :: ntail) repl 0 s := by
  rw [List.cons_append, pyReplaceAux]
  rw [if_pos (by simpa [strMatch] using strMatch_append_self ntail s)]
  simp only [List.length_cons, Nat.add_sub_cancel]
  rw [pyReplaceAux_skip]

theorem pyReplaceAux_no_head (n0 : Char) (ntail repl : List Char)
    (pre s : List Char) (hpre : n0 ∉ pre) :
    pyReplaceAux (n0 :: ntail) repl 0 (pre ++ s)
      = pre ++ pyReplaceAux (n0 :: ntail) repl 0 s := by
  induction pre with
  | nil => rfl
  | cons c cs ih =>
    have hc : c ≠ n0 := fun hc => hpre (by simp [hc])
    have hcn : n0 ≠ c := Ne.symm hc
    rw [List.cons_append, pyReplaceAux]
    rw [if_neg (by simp [strMatch, hcn])]
    rw [ih (fun hm => hpre (List.mem_cons_of_mem c hm)), List.cons_append]

theorem pyReplaceAux_of_not_mem (n0 : Char) (ntail repl : List Char)
    (s : List Char) (hs : n0 ∉ s) :
    pyReplaceAux (n0 :: ntail) repl 0 s = s := by
  have h := pyReplaceAux_no_head n0 ntail repl s [] hs
  simpa [pyReplaceAux] using h

/-- One occurrence of the needle, whose first character appears nowhere
else, is replaced and everything around it is kept verbatim. -/
theorem pyReplace_split (n0 : Char) (ntail repl pre suf : List Char)
    (hpre : n0 ∉ pre) (hsuf : n0 ∉ suf) :
    pyReplace (n0 :: ntail) repl (pre ++ ((n0 :: ntail) ++ suf))
      = pre ++ (repl ++ suf) := by
  unfold pyReplace
  rw [pyReplaceAux_no_head n0 ntail repl pre _ hpre, pyReplaceAux_at_head,
    pyReplaceAux_of_not_mem n0 ntail repl suf hsuf]

set_option maxRecDepth 16384 in
/-- C10: success_page substitutes the given filename verbatim for the
placeholder in the download template, so the body is the template's text
with the literal "/download/" immediately followed by the unmodified
filename; no validation or escaping happens. -/
theorem success_page_substitutes (filename : String) :
    success_page filename
      = Response.html (dt_before ++ "/download/" ++ filename ++ dt_after) 200 := by
  have hdt : download_template.data
      = (dt_before.data ++ "/download/".data)
        ++ (('\x7b' :: "filename\x7d".data) ++ dt_after.data) := by decide
  have hpre : '\x7b' ∉ dt_before.data ++ "/download/".data := by decide
  have hsuf : '\x7b' ∉ dt_after.data := by decide
  have hneedle : "\x7bfilename\x7d".data = '\x7b' :: "filename\x7d".data := rfl
  unfold success_page pyReplaceStr
  refine congrArg (fun bd => Response.html bd 200) ?_
  rw [hneedle, hdt, pyReplace_split _ _ _ _ _ hpre hsuf]
  apply String.ext
  simp [String.data_append, List.append_assoc]

theorem download_join_output :
    os_path_join output_dir "output.wav" = "outputs/output.wav" := by decide

/-- C7: two generate_speech requests with supported languages share the
single output slot: the paths they write are identical, and there is an
interleaved schedule of their filesystem events in which client 1's
download observes the audio synthesized for client 2's text and
language. -/
theorem shared_output_race
    (synth : SynthCall → Except String String) (cwd t1 l1 t2 l2 a1 a2 : String)
    (h1 : l1 ∈ supported_languages) (h2 : l2 ∈ supported_languages)
    (hs1 : synth { text := t1, speaker_wav := custom_speaker_wav cwd,
                   language := l1, file_path := "outputs/output.wav" }
           = Except.ok a1)
    (hs2 : synth { text := t2, speaker_wav := custom_speaker_wav cwd,
                   language := l2, file_path := "outputs/output.wav" }
           = Except.ok a2) :
    ((generate_speech synth cwd t1 l1).writes.map Prod.fst
      = (generate_speech synth cwd t2 l2).writes.map Prod.fst)
    ∧ ∃ zs, Interleaving (session 1 synth cwd t1 l1) (session 2 synth cwd t2 l2) zs
        ∧ (1, "outputs/output.wav", some a2) ∈ runEvents zs (fun _ => none) := by
  have g1 := generate_ok_result synth cwd t1 l1 a1 h1 hs1
  have g2 := generate_ok_result synth cwd t2 l2 a2 h2 hs2
  have s1 : session 1 synth cwd t1 l1
      = [Event.write 1 "outputs/output.wav" a1,
         Event.read 1 "outputs/output.wav"] := by
    simp [session, g1, download_join_output]
  have s2 : session 2 synth cwd t2 l2
      = [Event.write 2 "outputs/output.wav" a2,
         Event.read 2 "outputs/output.wav"] := by
    simp [session, g2, download_join_output]
  constructor
  · simp [g1, g2]
  · refine ⟨[Event.write 1 "outputs/output.wav" a1,
      Event.write 2 "outputs/output.wav" a2,
      Event.read 1 "outputs/output.wav",
      Event.read 2 "outputs/output.wav"], ?_, ?_⟩
    · rw [s1, s2]
      exact Interleaving.left (Interleaving.right (Interleaving.left
        (Interleaving.right Interleaving.nil)))
    · simp [runEvents]

theorem shared_output_race_witness :
    ((generate_speech (fun c => Except.ok ("AUDIO-" ++ c.language)) "/app" "नमस्ते" "hi").writes.map
        Prod.fst
      = (generate_speech (fun c => Except.ok ("AUDIO-" ++ c.language)) "/app" "hello" "en").writes.map
        Prod.fst)
    ∧ ∃ zs, Interleaving
        (session 1 (fun c => Except.ok ("AUDIO-" ++ c.language)) "/app" "नमस्ते" "hi")
        (session 2 (fun c => Except.ok ("AUDIO-" ++ c.language)) "/app" "hello" "en") zs
        ∧ (1, "outputs/output.wav", some "AUDIO-en") ∈ runEvents zs (fun _ => none) :=
  shared_output_race (fun c => Except.ok ("AUDIO-" ++ c.language)) "/app"
    "नमस्ते" "hi" "hello" "en" "AUDIO-hi" "AUDIO-en" (by decide) (by decide) rfl rfl

end Voicely
